import Mathlib

/-!
Verification development for the gandiva-xspm backend.

The Python backend is shallowly embedded: Python strings are modelled as
`List Char` (sequences of code points restricted to the ASCII behaviour of
`str.lower` / `str.upper`), fallible code returns `Option`, the MongoDB
collections are lists of typed documents, and the Neo4j graph is a list of
labelled nodes.  Each section names the source file and function it embeds.
-/

namespace Gandiva

/-- Python strings, modelled as their sequence of characters. -/
abbrev PyStr := List Char

/-- Python `str.lower()` (ASCII model, `Char.toLower` per character). -/
def pyLower (s : PyStr) : PyStr := s.map Char.toLower

/-- Python `str.upper()` (ASCII model). -/
def pyUpper (s : PyStr) : PyStr := s.map Char.toUpper

/-- Python `str.replace(a, b)` for single-character `a`, `b`. -/
def pyReplaceChar (a b : Char) (s : PyStr) : PyStr :=
  s.map (fun c => if c = a then b else c)

/-! ## `prepare_node_label` — src/backend/neo4j_asset_resource.py, lines 67–71

```python
def prepare_node_label(label):
    if not label:
        return 'unknown'
    return str(label).lower().replace(' ', '_').replace('-', '_')
```
A missing (`None`) label is modelled as `Option.none`. -/

def prepare_node_label (label : Option PyStr) : PyStr :=
  match label with
  | Option.none => "unknown".data
  | Option.some s =>
    if s = [] then "unknown".data
    else pyReplaceChar '-' '_' (pyReplaceChar ' ' '_' (pyLower s))

/-- The sanitization rule as the spec words it: lowercase, then replace
every non-alphanumeric character by `'_'`.  Used only to compare the spec's
claim with the code's actual behaviour. -/
def spec_sanitize_label (label : Option PyStr) : PyStr :=
  match label with
  | Option.none => "unknown".data
  | Option.some s =>
    if s = [] then "unknown".data
    else (pyLower s).map (fun c => if c.isAlphanum then c else '_')

/-! ## `mask_pii_data` — src/backend/database_scanner_resource.py lines 41–82
(byte-identical copy in src/backend/s3_scanner_resource.py lines 35–76)

```python
def mask_pii_data(value, pii_type):
    if not value or value == '':
        return ''
    value = str(value)
    if pii_type == 'Email Address':
        parts = value.split('@')
        if len(parts) == 2:
            username, domain = parts
            masked_username = username[0] + '*' * (len(username) - 1)
            return f"{masked_username}@{domain}"
    elif pii_type == 'Credit Card Number':
        if len(value) >= 4:
            return '*' * (len(value) - 4) + value[-4:]
    elif pii_type == 'Phone Number':
        if len(value) >= 2:
            return '*' * (len(value) - 2) + value[-2:]
    elif pii_type in ['SSN', 'Social Security Number']:
        if len(value) >= 4:
            return '***-**-' + value[-4:]
    elif pii_type == 'Bank Account Number':
        if len(value) >= 4:
            return '*' * (len(value) - 4) + value[-4:]
    if len(value) <= 4:
        return '*' * len(value)
    elif len(value) <= 8:
        return value[:1] + '*' * (len(value) - 2) + value[-1:]
    else:
        return value[:2] + '*' * (len(value) - 4) + value[-2:]
```

`username[0]` raises `IndexError` on an empty local part, so the embedding
returns `Option PyStr` with `none` for that exception. -/

/-- Python `str.split(sep)` for a single-character separator: a separator
starts a new (empty) part, any other character is prepended to the first
part of the split of the rest (which is never empty). -/
def pySplit (sep : Char) : PyStr → List PyStr
  | [] => [[]]
  | c :: rest =>
    let r := pySplit sep rest
    if c = sep then [] :: r else (c :: r.headD []) :: r.tail

/-- The fall-through default masking branch of `mask_pii_data`. -/
def defaultMask (value : PyStr) : PyStr :=
  let n := value.length
  if n ≤ 4 then List.replicate n '*'
  else if n ≤ 8 then value.take 1 ++ List.replicate (n - 2) '*' ++ value.drop (n - 1)
  else value.take 2 ++ List.replicate (n - 4) '*' ++ value.drop (n - 2)

def mask_pii_data (value : PyStr) (piiType : String) : Option PyStr :=
  if value = [] then Option.some []
  else
    let n := value.length
    if piiType = "Email Address" then
      match pySplit '@' value with
      | [username, domain] =>
        match username with
        | [] => Option.none
        | u0 :: _ =>
          Option.some ((u0 :: List.replicate (username.length - 1) '*') ++ '@' :: domain)
      | _ => Option.some (defaultMask value)
    else if piiType = "Credit Card Number" then
      if 4 ≤ n then Option.some (List.replicate (n - 4) '*' ++ value.drop (n - 4))
      else Option.some (defaultMask value)
    else if piiType = "Phone Number" then
      if 2 ≤ n then Option.some (List.replicate (n - 2) '*' ++ value.drop (n - 2))
      else Option.some (defaultMask value)
    else if piiType = "SSN" ∨ piiType = "Social Security Number" then
      if 4 ≤ n then Option.some ("***-**-".data ++ value.drop (n - 4))
      else Option.some (defaultMask value)
    else if piiType = "Bank Account Number" then
      if 4 ≤ n then Option.some (List.replicate (n - 4) '*' ++ value.drop (n - 4))
      else Option.some (defaultMask value)
    else Option.some (defaultMask value)

/-- The categories that carry a category-specific masking rule. -/
def specialPiiTypes : List String :=
  ["Email Address", "Credit Card Number", "Phone Number",
   "SSN", "Social Security Number", "Bank Account Number"]

/-- Does `value` split on `'@'` into exactly a one-character local part and a
domain (the shape on which the email rule keeps the whole value)? -/
def emailSingleCharLocal (value : PyStr) : Bool :=
  match pySplit '@' value with
  | [username, _] => username.length = 1
  | _ => false

/-! ## `clean_value` / `convert_to_lowercase` / `DateTimeEncoder`
— src/backend/neo4j_asset_resource.py lines 16–52

```python
def clean_value(value):
    if isinstance(value, (dict, list)):
        cleaned = json.dumps(value, cls=DateTimeEncoder)
        return convert_to_lowercase(cleaned)      # a str, so: cleaned.lower()
    elif isinstance(value, datetime):
        return value.isoformat()
    elif isinstance(value, ObjectId):
        return str(value)
    elif isinstance(value, str):
        return value.lower()
    elif isinstance(value, (int, float, bool)):
        return value
    elif value is None:
        return value
    return str(value).lower()
```

Representable values are modelled by `PyVal`: strings, integers, booleans,
`None`, `datetime` (second resolution), `ObjectId` (12 raw bytes), and
nested dicts/lists.  `json.dumps` uses Python's default separators
`", "` and `": "`; the embedding escapes `"` and `\` inside strings (the
only escapes the values in the theorems below exercise). -/

structure PyDateTime where
  year : Nat
  month : Nat
  day : Nat
  hour : Nat
  minute : Nat
  second : Nat
deriving DecidableEq

inductive PyVal where
  | str (s : PyStr)
  | int (n : Int)
  | bool (b : Bool)
  | none
  | dt (d : PyDateTime)
  | oid (bytes : List Nat)
  | dict (fields : List (PyStr × PyVal))
  | list (items : List PyVal)

/-- Zero-padded decimal rendering, width 2 (`datetime.isoformat` fields). -/
def pad2 (n : Nat) : PyStr :=
  if n < 10 then '0' :: Nat.toDigits 10 n else Nat.toDigits 10 n

/-- Zero-padded decimal rendering, width 4 (`datetime.isoformat` year). -/
def pad4 (n : Nat) : PyStr :=
  let ds := Nat.toDigits 10 n
  List.replicate (4 - ds.length) '0' ++ ds

/-- Model of `datetime.isoformat()` at second resolution: `YYYY-MM-DDTHH:MM:SS`. -/
def isoformat (d : PyDateTime) : PyStr :=
  pad4 d.year ++ '-' :: pad2 d.month ++ '-' :: pad2 d.day
    ++ 'T' :: pad2 d.hour ++ ':' :: pad2 d.minute ++ ':' :: pad2 d.second

/-- One lowercase hexadecimal digit. -/
def hexDigit (n : Nat) : Char :=
  Char.ofNat (if n < 10 then 48 + n else 87 + n)

/-- Rendering of `str(ObjectId)`: the 12 id bytes as 24 lowercase hex characters. -/
def oidHex (bytes : List Nat) : PyStr :=
  bytes.flatMap (fun b => [hexDigit (b / 16 % 16), hexDigit (b % 16)])

/-- JSON string escaping for `"` and `\`. -/
def jsonEscape (s : PyStr) : PyStr :=
  s.flatMap (fun c => if c = '"' ∨ c = '\\' then ['\\', c] else [c])

/-- Python `repr`/`str` of an int, as used by `json.dumps`. -/
def intChars (n : Int) : PyStr :=
  if n < 0 then '-' :: Nat.toDigits 10 n.natAbs else Nat.toDigits 10 n.natAbs

/-- The opening curly brace character (code point 123). -/
def lbrace : Char := Char.ofNat 123

/-- The closing curly brace character (code point 125). -/
def rbrace : Char := Char.ofNat 125

mutual

/-- Embedding of `json.dumps(value, cls=DateTimeEncoder)` with Python's default
separators; `datetime` and `ObjectId` go through `DateTimeEncoder.default`. -/
def jsonDumps : PyVal → PyStr
  | .str s => '"' :: jsonEscape s ++ ['"']
  | .int n => intChars n
  | .bool b => if b then "true".data else "false".data
  | .none => "null".data
  | .dt d => '"' :: isoformat d ++ ['"']
  | .oid bs => '"' :: oidHex bs ++ ['"']
  | .dict fs => lbrace :: List.intercalate ", ".data (jsonDumpsFields fs) ++ [rbrace]
  | .list xs => '[' :: List.intercalate ", ".data (jsonDumpsItems xs) ++ [']']

def jsonDumpsFields : List (PyStr × PyVal) → List PyStr
  | [] => []
  | (k, v) :: rest =>
    ('"' :: jsonEscape k ++ '"' :: ':' :: ' ' :: jsonDumps v) :: jsonDumpsFields rest

def jsonDumpsItems : List PyVal → List PyStr
  | [] => []
  | v :: rest => jsonDumps v :: jsonDumpsItems rest

end

/-- Embedding of `clean_value` — canonicalization of one Python value.
`convert_to_lowercase` applied to the dumped JSON string is its `str`
branch, i.e. `.lower()`. -/
def clean_value : PyVal → PyVal
  | .dict fs => .str (pyLower (jsonDumps (.dict fs)))
  | .list xs => .str (pyLower (jsonDumps (.list xs)))
  | .dt d => .str (isoformat d)
  | .oid bs => .str (oidHex bs)
  | .str s => .str (pyLower s)
  | .int n => .int n
  | .bool b => .bool b
  | .none => .none

/-! ## Graph projection rebuilds — src/backend/neo4j_asset_resource.py

The Neo4j graph is modelled as a list of labelled nodes.  Neo4j label
matching is exact (case-sensitive) string equality, and `DETACH DELETE`
removes a node together with its relationships, so node counting per label
is faithful at this level. -/

structure GNode where
  label : String
  nodeId : String
deriving DecidableEq

abbrev Graph := List GNode

/-- The statement `MATCH (n:label) DETACH DELETE n`. -/
def detachDeleteLabel (l : String) (g : Graph) : Graph :=
  g.filter (fun n => n.label ≠ l)

/-- Number of nodes in the graph carrying label `l`. -/
def countLabel (l : String) (g : Graph) : Nat :=
  g.countP (fun n => n.label = l)

/-! ### KEV document model (collection `known-exploited-vulnerabilities-catalog`)
Fields used by `neo4j_asset_resource.py` and `correlated_kev_resource.py`.
`cveID = none` models a document without a `"cveID"` key. -/

structure KevDoc where
  mongoId : String
  cveID : Option String
  vendorProject : Option String
  product : Option String
  vulnerabilityName : Option String
  dateAdded : Option String
  dueDate : Option String
  shortDescription : Option String
  requiredAction : Option String
  knownRansomwareCampaignUse : Option String
  notes : Option String
  cwes : List String
deriving DecidableEq

/-! ### Docker scan document model (collection `docker_image_vulnerability`)
`doc['vulnerabilities']` is a list of trivy result items, each holding a
`Target` name and a nested `Vulnerabilities` list.  An absent field is
`none`; the code also skips present non-list values, which behave like
absent fields. -/

structure VulnRecord where
  vulnerabilityID : Option String
  severity : Option String
  pkgName : Option String
  /-- The `PkgIdentifier` dict if present; inner `InstalledVersion` if present. -/
  pkgIdentifier : Option (Option String)
  installedVersion : Option String
  /-- The `Layer` dict if present; inner `DiffID` if present. -/
  layerDiffID : Option (Option String)
deriving DecidableEq

structure VulnItem where
  target : Option String
  vulnerabilities : Option (List VulnRecord)
deriving DecidableEq

structure DockerDoc where
  mongoId : String
  image_uri : Option String
  region : Option String
  repository : Option String
  vulnerabilities : Option (List VulnItem)
deriving DecidableEq

/-- The nested vulnerability records the Docker projection loop visits
(`for vuln_doc in doc['vulnerabilities']: ... for vuln in
vuln_doc['Vulnerabilities']`). -/
def nestedRecords (doc : DockerDoc) : List VulnRecord :=
  (doc.vulnerabilities.getD []).flatMap (fun item => item.vulnerabilities.getD [])

/-- Embedding of `Neo4jKnownExploitedVulnerabilityResource.post` (lines 408–478): delete
`MATCH (n:KnownExploitedVulnerability)`, then `CREATE
(n:knownexploitedvulnerability ...)` once per document.  `fresh i` stands
for `str(uuid.uuid4())`, used when `str(doc['_id'])` is empty. -/
def kevRebuild (fresh : Nat → String) (docs : List KevDoc) (g : Graph) : Graph :=
  detachDeleteLabel "KnownExploitedVulnerability" g
    ++ (docs.enum.map (fun (i, d) =>
        GNode.mk "knownexploitedvulnerability"
          (if d.mongoId = "" then fresh i else d.mongoId)))

/-- Embedding of `Neo4jDockerVulnerabilityResource.post` (lines 82–166): delete
`MATCH (n:dockerimage)` and `MATCH (n:vulnerability)`, then per document
create one `dockerimage` node and one `vulnerability` node per nested
record.  `freshV i j` stands for the `str(uuid.uuid4())` id of the `j`-th
vulnerability node of the `i`-th document. -/
def dockerRebuild (freshV : Nat → Nat → String) (docs : List DockerDoc) (g : Graph) : Graph :=
  detachDeleteLabel "vulnerability" (detachDeleteLabel "dockerimage" g)
    ++ (docs.enum.flatMap (fun (i, d) =>
        GNode.mk "dockerimage" d.mongoId
          :: (nestedRecords d).enum.map (fun (j, _) =>
              GNode.mk "vulnerability" (freshV i j))))

/-! ## KEV correlation — src/backend/correlated_kev_resource.py lines 37–124
(`CorrelatedKnownExploitsResource._correlate_kev_data`) -/

structure CorrelatedFinding where
  cveID : String
  severity : String
  packageName : String
  installedVersion : String
  layerID : String
  imageName : String
  imageID : String
  repository : String
  vendorProject : String
  product : String
  vulnerabilityName : String
  dateAdded : String
  dueDate : String
  shortDescription : String
  requiredAction : String
  knownRansomwareCampaignUse : String
  notes : String
  cwes : List String
deriving DecidableEq

/-- The list `kev_cve_ids = [kev["cveID"] for kev in kev_cves if "cveID" in kev]`. -/
def kevCveIds (kevDocs : List KevDoc) : List String :=
  kevDocs.filterMap (fun k => k.cveID)

/-- The `installed_version` extraction (lines 75–79). -/
def installedVersionOf (v : VulnRecord) : String :=
  match v.pkgIdentifier with
  | Option.some inner => inner.getD "Unknown"
  | Option.none => v.installedVersion.getD "Unknown"

/-- The `layerID` extraction (line 87). -/
def layerIdOf (v : VulnRecord) : String :=
  match v.layerDiffID with
  | Option.some inner => inner.getD "Unknown"
  | Option.none => "Unknown"

/-- One correlated record (lines 82–103). -/
def mkFinding (doc : DockerDoc) (item : VulnItem) (v : VulnRecord) (vid : String)
    (k : KevDoc) : CorrelatedFinding where
  cveID := vid
  severity := v.severity.getD "Unknown"
  packageName := v.pkgName.getD "Unknown"
  installedVersion := installedVersionOf v
  layerID := layerIdOf v
  imageName := item.target.getD "Unknown"
  imageID := doc.image_uri.getD "Unknown"
  repository := doc.repository.getD "Unknown"
  vendorProject := k.vendorProject.getD "Unknown"
  product := k.product.getD "Unknown"
  vulnerabilityName := k.vulnerabilityName.getD "Unknown"
  dateAdded := k.dateAdded.getD "Unknown"
  dueDate := k.dueDate.getD "Unknown"
  shortDescription := k.shortDescription.getD "Unknown"
  requiredAction := k.requiredAction.getD "Unknown"
  knownRansomwareCampaignUse := k.knownRansomwareCampaignUse.getD "Unknown"
  notes := k.notes.getD "Unknown"
  cwes := k.cwes

/-- The correlation loop (lines 52–106): for every nested record with a
`VulnerabilityID` that is a member of `kev_cve_ids`, look up the first KEV
document with that `cveID` (`find_one`) and emit the enriched finding. -/
def correlatedVulns (kevDocs : List KevDoc) (dockerDocs : List DockerDoc) :
    List CorrelatedFinding :=
  dockerDocs.flatMap (fun doc =>
    (doc.vulnerabilities.getD []).flatMap (fun item =>
      (item.vulnerabilities.getD []).filterMap (fun v =>
        match v.vulnerabilityID with
        | Option.none => Option.none
        | Option.some vid =>
          if vid ∈ kevCveIds kevDocs then
            match kevDocs.find? (fun k => decide (k.cveID = Option.some vid)) with
            | Option.some k => Option.some (mkFinding doc item v vid k)
            | Option.none => Option.none
          else Option.none)))

/-- Python's `round` (banker's rounding) on an exact rational. -/
def roundHalfEven (x : ℚ) : ℤ :=
  let f := ⌊x⌋
  if x - f < 1/2 then f
  else if 1/2 < x - f then f + 1
  else if Even f then f else f + 1

/-- Embedding of `round(x, 2)`. -/
def pyRound2 (x : ℚ) : ℚ := (roundHalfEven (x * 100) : ℚ) / 100

structure KevSummary where
  total_kev_vulnerabilities : Nat
  total_matched_in_docker : Nat
  percentage_matched : ℚ
  affected_images : Nat
deriving DecidableEq

/-- The summary block (lines 112–117).  `len(set(...))` is the number of
distinct `imageName` values. -/
def correlateKev (kevDocs : List KevDoc) (dockerDocs : List DockerDoc) :
    KevSummary × List CorrelatedFinding :=
  let ids := kevCveIds kevDocs
  let correlated := correlatedVulns kevDocs dockerDocs
  (⟨ids.length,
    correlated.length,
    if ids.isEmpty then 0
    else pyRound2 ((correlated.length : ℚ) / (ids.length : ℚ) * 100),
    (correlated.map (fun f => f.imageName)).dedup.length⟩,
   correlated)

/-- All nested `VulnerabilityID` strings the correlation loop examines, in
visit order. -/
def allNestedVulnIds (dockerDocs : List DockerDoc) : List String :=
  dockerDocs.flatMap (fun doc =>
    (doc.vulnerabilities.getD []).flatMap (fun item =>
      (item.vulnerabilities.getD []).filterMap (fun v => v.vulnerabilityID)))

/-! ## Docker image severity counters
— src/backend/neo4j_asset_resource.py lines 96–155

```python
severity = vuln.get('Severity', '').upper()
if severity == 'HIGH': ...high += 1
elif severity == 'MEDIUM': ...medium += 1
elif severity == 'LOW': ...low += 1
...total_vulnerabilities += 1
```
`str.upper` is modelled per character (ASCII), matching the `'HIGH'` /
`'MEDIUM'` / `'LOW'` comparisons. -/

/-- Lift of `pyUpper` to Lean `String` fields. -/
def pyUpperS (s : String) : String := ⟨pyUpper s.data⟩

structure SevCounts where
  total_vulnerabilities : Nat
  high_vulnerabilities : Nat
  medium_vulnerabilities : Nat
  low_vulnerabilities : Nat
deriving DecidableEq

/-- One iteration of the count-update block. -/
def sevStep (acc : SevCounts) (v : VulnRecord) : SevCounts :=
  let severity := pyUpperS (v.severity.getD "")
  let acc1 :=
    if severity = "HIGH" then { acc with high_vulnerabilities := acc.high_vulnerabilities + 1 }
    else if severity = "MEDIUM" then { acc with medium_vulnerabilities := acc.medium_vulnerabilities + 1 }
    else if severity = "LOW" then { acc with low_vulnerabilities := acc.low_vulnerabilities + 1 }
    else acc
  { acc1 with total_vulnerabilities := acc1.total_vulnerabilities + 1 }

/-- The aggregate counters written back onto the image node: all four
counters start at 0 and are updated once per nested record. -/
def imageCounts (doc : DockerDoc) : SevCounts :=
  (nestedRecords doc).foldl sevStep ⟨0, 0, 0, 0⟩

/-! ## Relationship builder
— src/backend/neo4j_relationship_resource.py lines 28–98
(`Neo4jRelationshipBuilderResource.post`)

The Neo4j session is an external collaborator: it is modelled as a function
from a statement to `Except error counters`.  Statement strings are
`PyStr`. -/

structure QueryCounters where
  nodes_created : Nat
  relationships_created : Nat
  properties_set : Nat
deriving DecidableEq

/-- One entry of the `results` list: either the success record with the
statement's own counters, or the `{relationship_type, error}` record. -/
inductive QueryResult where
  | ok (relationship_type : PyStr) (counters : QueryCounters)
  | err (relationship_type : PyStr) (message : String)
deriving DecidableEq

/-- First index of `pat` as a substring of `s` at or after `start`
(Python `str.find(pat, start)`), `none` for Python's `-1`. -/
def findSubFrom (s pat : PyStr) (start : Nat) : Option Nat :=
  (List.range (s.length + 1)).find? (fun i =>
    decide (start ≤ i) && decide ((s.drop i).take pat.length = pat))

/-- Python `pat in s`. -/
def containsSub (s pat : PyStr) : Bool :=
  (findSubFrom s pat 0).isSome

/-- The heuristic relationship-type extraction (lines 52–59):

```python
relationship_type = "Unknown"
if "MERGE" in query and "[:" in query and "]" in query:
    rel_start = query.find("[:")
    rel_end = query.find("]", rel_start)
    if rel_start > 0 and rel_end > rel_start:
        relationship_type = query[rel_start+2:rel_end]
```
-/
def extractRelationshipType (query : PyStr) : PyStr :=
  if containsSub query "MERGE".data ∧ containsSub query "[:".data
      ∧ containsSub query "]".data then
    match findSubFrom query "[:".data 0 with
    | Option.none => "Unknown".data
    | Option.some relStart =>
      let relEnd : Int :=
        match findSubFrom query "]".data relStart with
        | Option.none => -1
        | Option.some j => j
      if 0 < relStart ∧ relStart < relEnd then
        (query.drop (relStart + 2)).take (relEnd.toNat - (relStart + 2))
      else "Unknown".data
  else "Unknown".data

/-- The per-statement loop (lines 50–79): run each statement; on success
record its counters, on failure record the error; always continue. -/
def runStatements (session : PyStr → Except String QueryCounters)
    (queries : List PyStr) : List QueryResult :=
  queries.map (fun q =>
    match session q with
    | Except.ok c => QueryResult.ok (extractRelationshipType q) c
    | Except.error e => QueryResult.err (extractRelationshipType q) e)

/-- The count `successful_queries = sum(1 for r in results if 'error' not in r)`. -/
def successfulCount (results : List QueryResult) : Nat :=
  results.countP (fun r => match r with | QueryResult.ok _ _ => true | _ => false)

/-- The summary of a batch run (lines 84–94): total, successful, failed
(`len(queries) - successful`), total relationships created. -/
structure BatchSummary where
  total_queries : Nat
  successful_queries : Nat
  failed_queries : Nat
  total_relationships_created : Nat
deriving DecidableEq

def runBatch (session : PyStr → Except String QueryCounters)
    (queries : List PyStr) : BatchSummary × List QueryResult :=
  let results := runStatements session queries
  (⟨queries.length,
    successfulCount results,
    queries.length - successfulCount results,
    (results.map (fun r => match r with
      | QueryResult.ok _ c => c.relationships_created
      | QueryResult.err _ _ => 0)).sum⟩,
   results)

/-! ## S3 bucket scanning — src/backend/s3_scanner_resource.py lines 114–181
(`S3ScannerResource.scan_s3_bucket`)

Object bodies are byte lists.  The code decodes with
`file_content.decode("utf-8", errors="ignore")`, which drops undecodable
bytes and never raises, then matches every registry pattern against the
decoded text.  `utf8DecodeStrict` is strict UTF-8 decoding — the notion of
"fails text decoding".  Patterns are data from
`utils/databasescanner/pii_patterns.py`; the regex engine is modelled as a
`findall` function per pattern. -/

/-- Is `b` a UTF-8 continuation byte (`0x80–0xBF`)? -/
def isCont (b : Nat) : Bool := 128 ≤ b ∧ b ≤ 191

/-- Embedding of `bytes.decode("utf-8", errors="ignore")`: decode well-formed sequences
to code points, drop bytes that cannot start or complete one.  Fuel-based
so that it reduces definitionally; `utf8DecodeIgnore` supplies `length`
fuel, which always suffices (each step consumes at least one byte). -/
def utf8DecodeIgnoreAux : Nat → List Nat → List Nat
  | 0, _ => []
  | _ + 1, [] => []
  | fuel + 1, b :: bs =>
    if b < 128 then b :: utf8DecodeIgnoreAux fuel bs
    else if 194 ≤ b ∧ b ≤ 223 then
      match bs with
      | b2 :: bs2 =>
        if isCont b2 then ((b - 192) * 64 + (b2 - 128)) :: utf8DecodeIgnoreAux fuel bs2
        else utf8DecodeIgnoreAux fuel bs
      | [] => []
    else if 224 ≤ b ∧ b ≤ 239 then
      match bs with
      | b2 :: b3 :: bs3 =>
        if ((b = 224 ∧ 160 ≤ b2 ∧ b2 ≤ 191) ∨ (b = 237 ∧ 128 ≤ b2 ∧ b2 ≤ 159)
              ∨ (b ≠ 224 ∧ b ≠ 237 ∧ isCont b2)) ∧ isCont b3 then
          ((b - 224) * 4096 + (b2 - 128) * 64 + (b3 - 128)) :: utf8DecodeIgnoreAux fuel bs3
        else utf8DecodeIgnoreAux fuel bs
      | _ => []
    else if 240 ≤ b ∧ b ≤ 244 then
      match bs with
      | b2 :: b3 :: b4 :: bs4 =>
        if ((b = 240 ∧ 144 ≤ b2 ∧ b2 ≤ 191) ∨ (b = 244 ∧ 128 ≤ b2 ∧ b2 ≤ 143)
              ∨ (b ≠ 240 ∧ b ≠ 244 ∧ isCont b2)) ∧ isCont b3 ∧ isCont b4 then
          ((b - 240) * 262144 + (b2 - 128) * 4096 + (b3 - 128) * 64 + (b4 - 128))
            :: utf8DecodeIgnoreAux fuel bs4
        else utf8DecodeIgnoreAux fuel bs
      | _ => []
    else utf8DecodeIgnoreAux fuel bs

def utf8DecodeIgnore (bs : List Nat) : List Nat :=
  utf8DecodeIgnoreAux bs.length bs

/-- Strict UTF-8 decoding (`bytes.decode("utf-8")` with default `errors`):
`none` when the byte sequence is not valid UTF-8. -/
def utf8DecodeStrictAux : Nat → List Nat → Option (List Nat)
  | 0, [] => Option.some []
  | 0, _ :: _ => Option.none
  | _ + 1, [] => Option.some []
  | fuel + 1, b :: bs =>
    if b < 128 then (utf8DecodeStrictAux fuel bs).map (fun t => b :: t)
    else if 194 ≤ b ∧ b ≤ 223 then
      match bs with
      | b2 :: bs2 =>
        if isCont b2 then
          (utf8DecodeStrictAux fuel bs2).map (fun t => ((b - 192) * 64 + (b2 - 128)) :: t)
        else Option.none
      | [] => Option.none
    else if 224 ≤ b ∧ b ≤ 239 then
      match bs with
      | b2 :: b3 :: bs3 =>
        if ((b = 224 ∧ 160 ≤ b2 ∧ b2 ≤ 191) ∨ (b = 237 ∧ 128 ≤ b2 ∧ b2 ≤ 159)
              ∨ (b ≠ 224 ∧ b ≠ 237 ∧ isCont b2)) ∧ isCont b3 then
          (utf8DecodeStrictAux fuel bs3).map
            (fun t => ((b - 224) * 4096 + (b2 - 128) * 64 + (b3 - 128)) :: t)
        else Option.none
      | _ => Option.none
    else if 240 ≤ b ∧ b ≤ 244 then
      match bs with
      | b2 :: b3 :: b4 :: bs4 =>
        if ((b = 240 ∧ 144 ≤ b2 ∧ b2 ≤ 191) ∨ (b = 244 ∧ 128 ≤ b2 ∧ b2 ≤ 143)
              ∨ (b ≠ 240 ∧ b ≠ 244 ∧ isCont b2)) ∧ isCont b3 ∧ isCont b4 then
          (utf8DecodeStrictAux fuel bs4).map
            (fun t => ((b - 240) * 262144 + (b2 - 128) * 4096 + (b3 - 128) * 64 + (b4 - 128)) :: t)
        else Option.none
      | _ => Option.none
    else Option.none

def utf8DecodeStrict (bs : List Nat) : Option (List Nat) :=
  utf8DecodeStrictAux bs.length bs

structure S3Object where
  key : String
  content : List Nat
deriving DecidableEq

/-- One stored S3 finding (the fields that decide which objects produced
findings; `count = len(unique_matches)`). -/
structure S3Finding where
  file_name : String
  pii_type : String
  count : Nat
deriving DecidableEq

/-- The per-object scan loop of `scan_s3_bucket`: decode each object's
bytes with `errors="ignore"` and record one finding per pattern with a
non-empty match list.  No decoding branch can raise, so every object is
classified. -/
def scanS3Bucket (patterns : List (String × (List Nat → List (List Nat))))
    (objects : List S3Object) : List S3Finding :=
  objects.flatMap (fun obj =>
    let fileText := utf8DecodeIgnore obj.content
    patterns.filterMap (fun pt =>
      let ms := pt.2 fileText
      if ms.isEmpty then Option.none
      else Option.some ⟨obj.key, pt.1, ms.dedup.length⟩))

/-- Code points of an ASCII string, for building byte/text literals. -/
def asciiCodes (s : String) : List Nat := s.data.map Char.toNat

/-- A concrete stand-in for the SSN registry pattern's `re.findall`: one
match when the text contains the digits `111-22-3333`. -/
def ssnFindall (text : List Nat) : List (List Nat) :=
  if (asciiCodes "111-22-3333") <:+: text then [asciiCodes "111-22-3333"] else []

/-! ### Concrete fixtures used by witnesses and counterexamples -/

/-- A KEV catalog document carrying only an id and (optionally) a `cveID`. -/
def kevDocBare (id : String) (cve : Option String) : KevDoc :=
  ⟨id, cve, Option.none, Option.none, Option.none, Option.none, Option.none,
   Option.none, Option.none, Option.none, Option.none, []⟩

/-- A nested trivy vulnerability record with an id and a severity. -/
def vulnRec (cve : Option String) (sev : Option String) : VulnRecord :=
  ⟨cve, sev, Option.none, Option.none, Option.none, Option.none⟩

/-- A Docker scan document with a single result item. -/
def dockerDocOf (id : String) (target : String) (vs : List VulnRecord) : DockerDoc :=
  ⟨id, Option.some (id ++ "-uri"), Option.none, Option.some "repo",
   Option.some [⟨Option.some target, Option.some vs⟩]⟩

/-- Image document with one `CRITICAL` and one `high` nested record. -/
def c10doc : DockerDoc :=
  dockerDocOf "d1" "alpine:3.18"
    [vulnRec (Option.some "CVE-1") (Option.some "CRITICAL"),
     vulnRec (Option.some "CVE-2") (Option.some "high")]

def c5q1 : PyStr := "MATCH (a:pod) MATCH (b:node) MERGE (a)-[:runs_on]->(b)".data

def c5q2 : PyStr := "THIS IS NOT CYPHER".data

def c5q3 : PyStr :=
  "MATCH (i:dockerimage) MATCH (v:vulnerability) MERGE (i)-[:has_vulnerability]->(v)".data

/-- A graph session on which the second fixture statement is malformed. -/
def c5session : PyStr → Except String QueryCounters := fun q =>
  if q = c5q1 then Except.ok ⟨0, 3, 1⟩
  else if q = c5q3 then Except.ok ⟨0, 7, 2⟩
  else Except.error "SyntaxError"

/-- Object bytes that are not valid UTF-8 (`0xFF` lead byte) but contain an
ASCII SSN. -/
def c7badBytes : List Nat := 255 :: asciiCodes "ssn 111-22-3333 leaked"

/-!
# Theorems

Helper lemmas first, then one theorem per claim (with witnesses and
counterexamples where required).
-/

theorem char_ofNat_toNat {n : Nat} (h1 : n < 55296) : (Char.ofNat n).toNat = n := by
  have hv : n.isValidChar := Or.inl h1
  rw [Char.ofNat, dif_pos hv]
  rfl

theorem char_toLower_of_upper {c : Char} (h : 65 ≤ c.toNat ∧ c.toNat ≤ 90) :
    c.toLower = Char.ofNat (c.toNat + 32) := by
  unfold Char.toLower
  rw [if_pos]
  exact ⟨h.1, h.2⟩

theorem char_toLower_of_not_upper {c : Char} (h : ¬(65 ≤ c.toNat ∧ c.toNat ≤ 90)) :
    c.toLower = c := by
  unfold Char.toLower
  rw [if_neg]
  intro hc
  exact h ⟨hc.1, hc.2⟩

theorem char_toLower_idem (c : Char) : c.toLower.toLower = c.toLower := by
  by_cases h : 65 ≤ c.toNat ∧ c.toNat ≤ 90
  · have h2 : (Char.ofNat (c.toNat + 32)).toNat = c.toNat + 32 :=
      char_ofNat_toNat (by omega)
    rw [char_toLower_of_upper h]
    apply char_toLower_of_not_upper
    rw [h2]
    omega
  · rw [char_toLower_of_not_upper h, char_toLower_of_not_upper h]

theorem pyLower_idem (s : PyStr) : pyLower (pyLower s) = pyLower s := by
  unfold pyLower
  rw [List.map_map]
  apply List.map_congr_left
  intro c _
  exact char_toLower_idem c

/-- Claim C6 (corrected).  Counterexample to the claim as stated: for the
label `"a.b"`, the code returns `"a.b"` unchanged, while the claimed rule
(every non-alphanumeric character replaced by `'_'`) would give `"a_b"`;
the `'.'` is non-alphanumeric yet survives. -/
theorem C6_label_sanitization_counterexample :
    prepare_node_label (Option.some "a.b".data) = "a.b".data
    ∧ spec_sanitize_label (Option.some "a.b".data) = "a_b".data
    ∧ prepare_node_label (Option.some "a.b".data)
        ≠ spec_sanitize_label (Option.some "a.b".data) := by
  refine ⟨by decide, by decide, by decide⟩

/-- Claim C6 (amended): label sanitization lowercases the label and replaces
only the characters `' '` and `'-'` by `'_'` (all other characters,
alphanumeric or not, are kept); an empty or missing label yields the
sentinel `"unknown"`. -/
theorem C6_label_sanitization :
    prepare_node_label Option.none = "unknown".data
    ∧ ∀ s : PyStr, prepare_node_label (Option.some s) =
        if s = [] then "unknown".data
        else (pyLower s).map (fun c => if c = ' ' ∨ c = '-' then '_' else c) := by
  constructor
  · rfl
  · intro s
    simp only [prepare_node_label]
    by_cases hs : s = []
    · simp [hs]
    · rw [if_neg hs, if_neg hs]
      unfold pyReplaceChar
      rw [List.map_map]
      apply List.map_congr_left
      intro c _
      by_cases h1 : c = ' '
      · simp [h1]
      · by_cases h2 : c = '-'
        · simp [h1, h2]
        · simp [h1, h2]

/-- Claim C8 (confirmed).  For a category with no category-specific rule,
`mask_pii_data` takes the default branch; the mask has exactly the input's
length, and has the claimed shape in each of the three length regimes. -/
theorem C8_default_mask_shape (v : PyStr) (t : String) (ht : t ∉ specialPiiTypes) :
    mask_pii_data v t = Option.some (defaultMask v)
    ∧ (defaultMask v).length = v.length
    ∧ (v.length ≤ 4 → defaultMask v = List.replicate v.length '*')
    ∧ (5 ≤ v.length → v.length ≤ 8 →
        defaultMask v = v.take 1 ++ List.replicate (v.length - 2) '*' ++ v.drop (v.length - 1))
    ∧ (9 ≤ v.length →
        defaultMask v = v.take 2 ++ List.replicate (v.length - 4) '*' ++ v.drop (v.length - 2)) := by
  simp only [specialPiiTypes, List.mem_cons, List.not_mem_nil, or_false, not_or] at ht
  obtain ⟨h1, h2, h3, h4, h5, h6⟩ := ht
  refine ⟨?_, ?_, ?_, ?_, ?_⟩
  · by_cases hv : v = []
    · subst hv
      simp [mask_pii_data, defaultMask]
    · simp only [mask_pii_data]
      rw [if_neg hv, if_neg h1, if_neg h2, if_neg h3, if_neg (not_or.mpr ⟨h4, h5⟩), if_neg h6]
  · unfold defaultMask
    by_cases hl4 : v.length ≤ 4
    · rw [if_pos hl4]
      simp
    · rw [if_neg hl4]
      by_cases hl8 : v.length ≤ 8
      · rw [if_pos hl8]
        simp only [List.length_append, List.length_take, List.length_replicate,
          List.length_drop]
        omega
      · rw [if_neg hl8]
        simp only [List.length_append, List.length_take, List.length_replicate,
          List.length_drop]
        omega
  · intro hle
    unfold defaultMask
    rw [if_pos hle]
  · intro hge hle
    unfold defaultMask
    rw [if_neg (by omega), if_pos hle]
  · intro hge
    unfold defaultMask
    rw [if_neg (by omega), if_neg (by omega)]

/-- Witness for C8 at the category `"Date of Birth"` and value
`"19870115"`. -/
theorem C8_default_mask_shape_witness :
    mask_pii_data "19870115".data "Date of Birth"
        = Option.some (defaultMask "19870115".data)
    ∧ (defaultMask "19870115".data).length = "19870115".data.length :=
  ⟨(C8_default_mask_shape "19870115".data "Date of Birth" (by decide)).1,
   (C8_default_mask_shape "19870115".data "Date of Birth" (by decide)).2.1⟩

/-! C10 helper lemmas: the counter fold is a per-severity `countP`. -/

theorem sevFold (l : List VulnRecord) (acc : SevCounts) :
    (l.foldl sevStep acc).total_vulnerabilities = acc.total_vulnerabilities + l.length
    ∧ (l.foldl sevStep acc).high_vulnerabilities
        = acc.high_vulnerabilities + l.countP (fun v => decide (pyUpperS (v.severity.getD "") = "HIGH"))
    ∧ (l.foldl sevStep acc).medium_vulnerabilities
        = acc.medium_vulnerabilities + l.countP (fun v => decide (pyUpperS (v.severity.getD "") = "MEDIUM"))
    ∧ (l.foldl sevStep acc).low_vulnerabilities
        = acc.low_vulnerabilities + l.countP (fun v => decide (pyUpperS (v.severity.getD "") = "LOW")) := by
  induction l generalizing acc with
  | nil => simp
  | cons v rest ih =>
    obtain ⟨iht, ihh, ihm, ihl⟩ := ih (sevStep acc v)
    by_cases hH : pyUpperS (v.severity.getD "") = "HIGH"
    · simp [sevStep, hH, List.countP_cons] at iht ihh ihm ihl ⊢
      refine ⟨by omega, by omega, by omega, by omega⟩
    · by_cases hM : pyUpperS (v.severity.getD "") = "MEDIUM"
      · simp [sevStep, hH, hM, List.countP_cons] at iht ihh ihm ihl ⊢
        refine ⟨by omega, by omega, by omega, by omega⟩
      · by_cases hL : pyUpperS (v.severity.getD "") = "LOW"
        · simp [sevStep, hH, hM, hL, List.countP_cons] at iht ihh ihm ihl ⊢
          refine ⟨by omega, by omega, by omega, by omega⟩
        · simp [sevStep, hH, hM, hL, List.countP_cons] at iht ihh ihm ihl ⊢
          refine ⟨by omega, by omega, by omega, by omega⟩

theorem sevPartition (l : List VulnRecord) :
    l.countP (fun v => decide (pyUpperS (v.severity.getD "") = "HIGH"))
      + l.countP (fun v => decide (pyUpperS (v.severity.getD "") = "MEDIUM"))
      + l.countP (fun v => decide (pyUpperS (v.severity.getD "") = "LOW"))
      + l.countP (fun v => decide (pyUpperS (v.severity.getD "") ≠ "HIGH"
          ∧ pyUpperS (v.severity.getD "") ≠ "MEDIUM" ∧ pyUpperS (v.severity.getD "") ≠ "LOW"))
      = l.length := by
  induction l with
  | nil => simp
  | cons v rest ih =>
    by_cases hH : pyUpperS (v.severity.getD "") = "HIGH"
    · simp [hH, List.countP_cons] at ih ⊢
      omega
    · by_cases hM : pyUpperS (v.severity.getD "") = "MEDIUM"
      · simp [hH, hM, List.countP_cons] at ih ⊢
        omega
      · by_cases hL : pyUpperS (v.severity.getD "") = "LOW"
        · simp [hH, hM, hL, List.countP_cons] at ih ⊢
          omega
        · simp [hH, hM, hL, List.countP_cons] at ih ⊢
          omega

/-- Claim C10 (confirmed).  After the Docker projection, an image's
`total_vulnerabilities` equals the number of nested records processed;
the three severity buckets sum to at most the total; and if some nested
record's uppercased `Severity` is none of `HIGH`/`MEDIUM`/`LOW` the sum is
strictly below the total. -/
theorem C10_image_counters (doc : DockerDoc) :
    (imageCounts doc).total_vulnerabilities = (nestedRecords doc).length
    ∧ (imageCounts doc).high_vulnerabilities + (imageCounts doc).medium_vulnerabilities
        + (imageCounts doc).low_vulnerabilities ≤ (imageCounts doc).total_vulnerabilities
    ∧ ((∃ v ∈ nestedRecords doc,
          pyUpperS (v.severity.getD "") ≠ "HIGH" ∧ pyUpperS (v.severity.getD "") ≠ "MEDIUM"
            ∧ pyUpperS (v.severity.getD "") ≠ "LOW") →
        (imageCounts doc).high_vulnerabilities + (imageCounts doc).medium_vulnerabilities
          + (imageCounts doc).low_vulnerabilities < (imageCounts doc).total_vulnerabilities) := by
  obtain ⟨ht, hh, hm, hl⟩ := sevFold (nestedRecords doc) ⟨0, 0, 0, 0⟩
  have hpart := sevPartition (nestedRecords doc)
  simp only [Nat.zero_add] at ht hh hm hl
  unfold imageCounts
  refine ⟨ht, by omega, ?_⟩
  intro hex
  have hpos : 0 < (nestedRecords doc).countP
      (fun v => decide (pyUpperS (v.severity.getD "") ≠ "HIGH"
        ∧ pyUpperS (v.severity.getD "") ≠ "MEDIUM" ∧ pyUpperS (v.severity.getD "") ≠ "LOW")) := by
    rw [List.countP_pos_iff]
    obtain ⟨v, hv, hprop⟩ := hex
    exact ⟨v, hv, by simpa using hprop⟩
  omega

/-- Witness for C10 at a document with a `CRITICAL` record: the buckets sum
strictly below the total. -/
theorem C10_image_counters_witness :
    (imageCounts c10doc).high_vulnerabilities + (imageCounts c10doc).medium_vulnerabilities
      + (imageCounts c10doc).low_vulnerabilities < (imageCounts c10doc).total_vulnerabilities :=
  (C10_image_counters c10doc).2.2 (by decide)

/-- Claim C5 (confirmed).  The relationship builder maps each statement of
the batch, in order, to either its own counter record or a
`{relationship_type, error}` record; a failure never drops the remaining
statements; `successful + failed = total`; and on the concrete 3-statement
batch whose second statement is malformed, the run yields exactly 2
successes and 1 failure with statements 1 and 3 keeping their counters. -/
theorem C5_batch_isolation (session : PyStr → Except String QueryCounters)
    (queries : List PyStr) :
    (runBatch session queries).2.length = queries.length
    ∧ (∀ i : Nat, (runBatch session queries).2[i]? =
        (queries[i]?).map (fun q =>
          match session q with
          | Except.ok c => QueryResult.ok (extractRelationshipType q) c
          | Except.error e => QueryResult.err (extractRelationshipType q) e))
    ∧ (runBatch session queries).1.successful_queries
        + (runBatch session queries).1.failed_queries
        = (runBatch session queries).1.total_queries
    ∧ runBatch c5session [c5q1, c5q2, c5q3]
        = (⟨3, 2, 1, 10⟩,
           [QueryResult.ok "runs_on".data ⟨0, 3, 1⟩,
            QueryResult.err "Unknown".data "SyntaxError",
            QueryResult.ok "has_vulnerability".data ⟨0, 7, 2⟩]) := by
  refine ⟨?_, ?_, ?_, by decide⟩
  · simp [runBatch, runStatements]
  · intro i
    simp [runBatch, runStatements, List.getElem?_map]
  · have hle : successfulCount (runStatements session queries) ≤ queries.length := by
      have h1 := List.countP_le_length
        (fun r => match r with | QueryResult.ok _ _ => true | _ => false)
        (l := runStatements session queries)
      simpa [runStatements, successfulCount] using h1
    simp only [runBatch]
    omega

/-! C1 helper lemmas. -/

theorem countLabel_append (l : String) (g1 g2 : Graph) :
    countLabel l (g1 ++ g2) = countLabel l g1 + countLabel l g2 := by
  unfold countLabel
  exact List.countP_append _ _ _

theorem countLabel_detach_self (l : String) (g : Graph) :
    countLabel l (detachDeleteLabel l g) = 0 := by
  unfold countLabel detachDeleteLabel
  rw [List.countP_eq_zero]
  intro n hn
  have := (List.mem_filter.mp hn).2
  simpa using this

theorem countLabel_detach_detach (l l' : String) (g : Graph) :
    countLabel l (detachDeleteLabel l' (detachDeleteLabel l g)) = 0 := by
  unfold countLabel detachDeleteLabel
  rw [List.countP_eq_zero]
  intro n hn
  have h1 := (List.mem_filter.mp hn).1
  have := (List.mem_filter.mp h1).2
  simpa using this

theorem countLabel_docker_chunks (freshV : Nat → Nat → String)
    (ps : List (Nat × DockerDoc)) :
    countLabel "dockerimage"
      (ps.flatMap (fun p =>
        GNode.mk "dockerimage" p.2.mongoId
          :: (nestedRecords p.2).enum.map (fun q => GNode.mk "vulnerability" (freshV p.1 q.1))))
      = ps.length := by
  induction ps with
  | nil => rfl
  | cons p rest ih =>
    unfold countLabel at *
    simp only [List.flatMap_cons, List.countP_append, List.countP_cons, ih]
    have hz : List.countP (fun n => decide (n.label = "dockerimage"))
        ((nestedRecords p.2).enum.map (fun q => GNode.mk "vulnerability" (freshV p.1 q.1))) = 0 := by
      rw [List.countP_eq_zero]
      intro n hn
      obtain ⟨q, _, hq⟩ := List.mem_map.mp hn
      subst hq
      simp
    simp [hz]
    omega

/-- Claim C1 (code bug).  The Docker-image family satisfies the claim: two
consecutive rebuilds against an unchanged collection leave exactly `N`
`dockerimage` nodes (the deletes target the same label names the creates
use).  The KEV family does not: the delete targets the label
`KnownExploitedVulnerability` while the create uses
`knownexploitedvulnerability`, and Neo4j labels are case-sensitive, so the
delete never matches and two rebuilds of a 1-document collection leave
**2** nodes, not 1. -/
theorem C1_rebuild_full_replace :
    (∀ (freshV : Nat → Nat → String) (docs : List DockerDoc) (g : Graph),
      countLabel "dockerimage" (dockerRebuild freshV docs (dockerRebuild freshV docs g))
        = docs.length)
    ∧ countLabel "knownexploitedvulnerability"
        (kevRebuild (fun _ => "uuid-1") [kevDocBare "64f1" (Option.some "CVE-2021-44228")]
          (kevRebuild (fun _ => "uuid-0") [kevDocBare "64f1" (Option.some "CVE-2021-44228")] []))
        = 2 := by
  constructor
  · intro freshV docs g
    have hsingle : ∀ g' : Graph,
        countLabel "dockerimage" (dockerRebuild freshV docs g') = docs.length := by
      intro g'
      unfold dockerRebuild
      rw [countLabel_append, countLabel_detach_detach]
      have h := countLabel_docker_chunks freshV docs.enum
      simp only [List.enum_length] at h
      simpa using h
    rw [hsingle]
  · decide

/-! C2 helper lemmas. -/

theorem hexDigit_toLower {n : Nat} (h : n < 16) : (hexDigit n).toLower = hexDigit n := by
  revert h
  revert n
  decide

theorem pyLower_oidHex (bs : List Nat) : pyLower (oidHex bs) = oidHex bs := by
  induction bs with
  | nil => rfl
  | cons b rest ih =>
    unfold oidHex at *
    simp only [List.flatMap_cons, pyLower, List.map_append, List.map_cons, List.map_nil] at *
    rw [ih, hexDigit_toLower (Nat.mod_lt _ (by norm_num)),
      hexDigit_toLower (Nat.mod_lt _ (by norm_num))]

/-- Claim C2 (corrected).  Counterexample to idempotence as claimed: a
`datetime` canonicalizes to its ISO string with an uppercase `'T'`
separator, and canonicalizing that string again lowercases the `'T'`,
giving a different value. -/
theorem C2_canonicalize_counterexample :
    clean_value (clean_value (PyVal.dt ⟨2025, 3, 14, 10, 30, 0⟩))
      ≠ clean_value (PyVal.dt ⟨2025, 3, 14, 10, 30, 0⟩) := by
  intro h
  simp only [clean_value] at h
  have h2 : pyLower (isoformat ⟨2025, 3, 14, 10, 30, 0⟩)
      = isoformat ⟨2025, 3, 14, 10, 30, 0⟩ := by
    injection h
  exact absurd h2 (by decide)

/-- Claim C2 (amended): canonicalization is idempotent for every
representable value that is not a top-level `datetime` — strings, numbers,
booleans, `None`, opaque identifiers (lowercase hex), and nested
dicts/lists (whose canonical form is an already-lowercased JSON string).
Top-level `datetime` values break idempotence (see the counterexample). -/
theorem C2_canonicalize_idempotent (x : PyVal) (hx : ∀ d, x ≠ PyVal.dt d) :
    clean_value (clean_value x) = clean_value x := by
  cases x with
  | str s =>
    simp only [clean_value]
    rw [pyLower_idem]
  | int n => rfl
  | bool b => rfl
  | none => rfl
  | dt d => exact absurd rfl (hx d)
  | oid bs =>
    simp only [clean_value]
    rw [pyLower_oidHex]
  | dict fs =>
    simp only [clean_value]
    rw [pyLower_idem]
  | list xs =>
    simp only [clean_value]
    rw [pyLower_idem]

/-- Witness for C2 at the nested dict `{"A": "B"}` (canonical form is the
lowercased JSON string, a fixed point of canonicalization). -/
theorem C2_canonicalize_idempotent_witness :
    clean_value (clean_value (PyVal.dict [("A".data, PyVal.str "B".data)]))
      = clean_value (PyVal.dict [("A".data, PyVal.str "B".data)]) :=
  C2_canonicalize_idempotent (PyVal.dict [("A".data, PyVal.str "B".data)])
    (fun _ h => PyVal.noConfusion h)

/-- Claim C3 (confirmed).  The correlation summary: the percentage is
`round(matched / |KEV ids| * 100, 2)` with denominator the KEV identifier
count, and exactly `0` when that set is empty; `affected_images` is the
number of distinct image names among the findings; and the number of
findings is at least the number of distinct matched CVE ids. -/
theorem C3_correlation_summary (kevDocs : List KevDoc) (dockerDocs : List DockerDoc) :
    (correlateKev kevDocs dockerDocs).1.total_kev_vulnerabilities = (kevCveIds kevDocs).length
    ∧ (correlateKev kevDocs dockerDocs).1.total_matched_in_docker
        = (correlateKev kevDocs dockerDocs).2.length
    ∧ (kevCveIds kevDocs = [] →
        (correlateKev kevDocs dockerDocs).1.percentage_matched = 0)
    ∧ (kevCveIds kevDocs ≠ [] →
        (correlateKev kevDocs dockerDocs).1.percentage_matched
          = pyRound2 (((correlateKev kevDocs dockerDocs).2.length : ℚ)
              / ((kevCveIds kevDocs).length : ℚ) * 100))
    ∧ (correlateKev kevDocs dockerDocs).1.affected_images
        = ((correlateKev kevDocs dockerDocs).2.map (fun f => f.imageName)).dedup.length
    ∧ ((correlateKev kevDocs dockerDocs).2.map (fun f => f.cveID)).dedup.length
        ≤ (correlateKev kevDocs dockerDocs).1.total_matched_in_docker := by
  refine ⟨rfl, rfl, ?_, ?_, rfl, ?_⟩
  · intro h
    simp [correlateKev, h]
  · intro h
    simp [correlateKev, List.isEmpty_iff, h]
  · have hsub := List.dedup_sublist
      ((correlatedVulns kevDocs dockerDocs).map (fun f => f.cveID))
    have hle := hsub.length_le
    simpa [correlateKev] using hle

/-- Witness for C3 at an empty KEV catalog: the percentage is 0 (and not a
division by the finding count). -/
theorem C3_correlation_summary_witness :
    (correlateKev []
        [dockerDocOf "d1" "img" [vulnRec (Option.some "CVE-A") (Option.some "HIGH")]]
      ).1.percentage_matched = 0 :=
  (C3_correlation_summary []
    [dockerDocOf "d1" "img" [vulnRec (Option.some "CVE-A") (Option.some "HIGH")]]).2.2.1 rfl

/-! C9 helper lemmas. -/

theorem find_kev_isSome {kevDocs : List KevDoc} {vid : String}
    (h : vid ∈ kevCveIds kevDocs) :
    ∃ k, kevDocs.find? (fun k => decide (k.cveID = Option.some vid)) = Option.some k := by
  rw [← Option.isSome_iff_exists, List.find?_isSome]
  unfold kevCveIds at h
  obtain ⟨k, hk, he⟩ := List.mem_filterMap.mp h
  exact ⟨k, hk, by simp [he]⟩

theorem mkFinding_cveID (doc : DockerDoc) (item : VulnItem) (v : VulnRecord)
    (vid : String) (k : KevDoc) : (mkFinding doc item v vid k).cveID = vid := rfl

theorem correlate_inner (kevDocs : List KevDoc) (doc : DockerDoc) (item : VulnItem)
    (vs : List VulnRecord) :
    (vs.filterMap (fun v =>
        match v.vulnerabilityID with
        | Option.none => Option.none
        | Option.some vid =>
          if vid ∈ kevCveIds kevDocs then
            match kevDocs.find? (fun k => decide (k.cveID = Option.some vid)) with
            | Option.some k => Option.some (mkFinding doc item v vid k)
            | Option.none => Option.none
          else Option.none)).map (fun f => f.cveID)
      = (vs.filterMap (fun v => v.vulnerabilityID)).filter
          (fun vid => decide (vid ∈ kevCveIds kevDocs)) := by
  induction vs with
  | nil => rfl
  | cons v rest ih =>
    simp only [List.filterMap_cons]
    cases hvid : v.vulnerabilityID with
    | none => simpa using ih
    | some vid =>
      by_cases hmem : vid ∈ kevCveIds kevDocs
      · obtain ⟨k, hk⟩ := find_kev_isSome hmem
        simp [hmem, hk, mkFinding_cveID, ih]
      · simp [hmem, ih]

/-- Claim C9 (confirmed).  A correlated finding is emitted exactly for the
nested records whose `VulnerabilityID` is literally (case-sensitively)
equal to some KEV `cveID` — the emitted `cveID`s are precisely the nested
ids filtered by exact membership in the KEV id list, in visit order — and
on a concrete catalog the ids `CVE-2025-30154` and `cve-2025-30154`
(differing only in case) produce no match. -/
theorem C9_exact_match (kevDocs : List KevDoc) (dockerDocs : List DockerDoc) :
    ((correlateKev kevDocs dockerDocs).2.map (fun f => f.cveID)
        = (allNestedVulnIds dockerDocs).filter
            (fun vid => decide (vid ∈ kevCveIds kevDocs)))
    ∧ (correlateKev [kevDocBare "k1" (Option.some "CVE-2025-30154")]
        [dockerDocOf "d1" "img"
          [vulnRec (Option.some "cve-2025-30154") (Option.some "HIGH")]]).2 = [] := by
  constructor
  · show (correlatedVulns kevDocs dockerDocs).map (fun f => f.cveID) = _
    unfold correlatedVulns allNestedVulnIds
    rw [List.map_flatMap, List.filter_flatMap]
    apply List.flatMap_congr  -- pointwise equality over docs
    intro doc _
    rw [List.map_flatMap, List.filter_flatMap]
    apply List.flatMap_congr
    intro item _
    exact correlate_inner kevDocs doc item _
  · decide

/-- Claim C7 (code bug).  `decode("utf-8", errors="ignore")` never raises, so
the `except UnicodeDecodeError` skip branch is unreachable: an object whose
bytes are *not* valid UTF-8 (here a `0xFF` lead byte before an ASCII SSN)
is still classified after the undecodable byte is dropped, and produces a
finding instead of being skipped. -/
theorem C7_blob_decode_not_skipped :
    utf8DecodeStrict c7badBytes = Option.none
    ∧ utf8DecodeIgnore c7badBytes = asciiCodes "ssn 111-22-3333 leaked"
    ∧ scanS3Bucket [("SSN", ssnFindall)] [⟨"creds.txt", c7badBytes⟩]
        = [⟨"creds.txt", "SSN", 1⟩] := by
  refine ⟨by decide, by decide, by decide⟩

/-! C4 helper lemmas. -/

theorem pySplit_ne_nil (sep : Char) (s : PyStr) : pySplit sep s ≠ [] := by
  cases s with
  | nil => simp [pySplit]
  | cons c rest =>
    simp only [pySplit]
    by_cases hc : c = sep
    · simp [hc]
    · simp [hc]

theorem pySplit_single {sep : Char} {s p : PyStr} (h : pySplit sep s = [p]) : s = p := by
  induction s generalizing p with
  | nil =>
    simp only [pySplit] at h
    simpa using h.symm
  | cons c rest ih =>
    simp only [pySplit] at h
    cases hr : pySplit sep rest with
    | nil => exact absurd hr (pySplit_ne_nil sep rest)
    | cons q qs =>
      rw [hr] at h
      by_cases hc : c = sep
      · rw [if_pos hc] at h
        simp at h
      · rw [if_neg hc] at h
        simp only [List.headD_cons, List.tail_cons] at h
        obtain ⟨h1, h2⟩ := List.cons.inj h
        subst h2
        have hrest : rest = q := ih (by rw [hr])
        rw [hrest]
        exact h1

theorem pySplit_pair {sep : Char} {s u d : PyStr} (h : pySplit sep s = [u, d]) :
    s = u ++ sep :: d := by
  induction s generalizing u with
  | nil =>
    simp only [pySplit] at h
    simp at h
  | cons c rest ih =>
    simp only [pySplit] at h
    cases hr : pySplit sep rest with
    | nil => exact absurd hr (pySplit_ne_nil sep rest)
    | cons q qs =>
      rw [hr] at h
      by_cases hc : c = sep
      · rw [if_pos hc] at h
        obtain ⟨h1, h2⟩ := List.cons.inj h
        have hrest : rest = d := pySplit_single (by rw [hr, h2])
        rw [← h1, hc, hrest]
        rfl
      · rw [if_neg hc] at h
        simp only [List.headD_cons, List.tail_cons] at h
        obtain ⟨h1, h2⟩ := List.cons.inj h
        have hrest : rest = q ++ sep :: d := ih (by rw [hr, ← h2])
        rw [hrest, ← h1]
        rfl

theorem mask_ne_of_star_at {v m : PyStr} {i : Nat}
    (hstar : ∀ c ∈ v, c ≠ '*') (hi : i < v.length)
    (hm : m[i]? = Option.some '*') : m ≠ v := by
  intro h
  subst h
  rw [List.getElem?_eq_getElem hi] at hm
  exact hstar _ (List.getElem_mem hi) (Option.some.inj hm)

theorem star_head_ne {v rest : PyStr} {k : Nat} (hk : 1 ≤ k)
    (hlen : 0 < v.length) (hstar : ∀ c ∈ v, c ≠ '*') :
    List.replicate k '*' ++ rest ≠ v := by
  apply mask_ne_of_star_at hstar hlen
  cases k with
  | zero => omega
  | succ n =>
    rw [List.replicate_succ]
    exact List.getElem?_cons_zero

theorem defaultMask_ne (v : PyStr) (hlen : 4 < v.length) (hstar : ∀ c ∈ v, c ≠ '*') :
    defaultMask v ≠ v := by
  unfold defaultMask
  by_cases h8 : v.length ≤ 8
  · rw [if_neg (by omega), if_pos h8]
    apply mask_ne_of_star_at hstar (i := 1) (by omega)
    rw [List.getElem?_append_left (by simp only [List.length_append, List.length_take, List.length_replicate]; omega),
      List.getElem?_append_right (by simp only [List.length_append, List.length_take, List.length_replicate]; omega)]
    have h1 : (v.take 1).length = 1 := by
      simp only [List.length_take]
      omega
    rw [h1]
    exact List.getElem?_replicate_of_lt (by omega)
  · rw [if_neg (by omega), if_neg h8]
    apply mask_ne_of_star_at hstar (i := 2) (by omega)
    rw [List.getElem?_append_left (by simp only [List.length_append, List.length_take, List.length_replicate]; omega),
      List.getElem?_append_right (by simp only [List.length_append, List.length_take, List.length_replicate]; omega)]
    have h2 : (v.take 2).length = 2 := by
      simp only [List.length_take]
      omega
    rw [h2]
    exact List.getElem?_replicate_of_lt (by omega)

/-- Claim C4 (corrected).  Counterexample to the claim as stated: for the
email `"a@b.com"` (7 characters) the email rule keeps the first character
of the (single-character) local part plus the whole domain — which is the
entire verbatim input. -/
theorem C4_mask_counterexample :
    mask_pii_data "a@b.com".data "Email Address" = Option.some "a@b.com".data
    ∧ 4 < "a@b.com".data.length := by
  refine ⟨by decide, by decide⟩

/-- Claim C4 (amended): for every category and every input longer than 4
characters containing no `'*'` (so that the input cannot coincide with its
own masked image), every produced mask differs from the input — except the
email rule applied to a value with a single-character local part, which
returns the input verbatim. -/
theorem C4_mask_never_verbatim (v : PyStr) (t : String) (m : PyStr)
    (hlen : 4 < v.length) (hstar : ∀ c ∈ v, c ≠ '*')
    (hm : mask_pii_data v t = Option.some m) :
    (¬(t = "Email Address" ∧ emailSingleCharLocal v = true) → m ≠ v)
    ∧ ((t = "Email Address" ∧ emailSingleCharLocal v = true) → m = v) := by
  have hvne : v ≠ [] := by
    intro h
    subst h
    simp at hlen
  simp only [mask_pii_data] at hm
  rw [if_neg hvne] at hm
  by_cases ht1 : t = "Email Address"
  · rw [if_pos ht1] at hm
    rcases hsp : pySplit '@' v with _ | ⟨u, _ | ⟨d, _ | ⟨e, tl⟩⟩⟩
    · exact absurd hsp (pySplit_ne_nil _ _)
    · -- split produced one part: no '@' in v, default branch
      rw [hsp] at hm
      simp only [Option.some.injEq] at hm
      constructor
      · intro _
        rw [← hm]
        exact defaultMask_ne v hlen hstar
      · intro hsc
        rw [emailSingleCharLocal, hsp] at hsc
        simp at hsc
    · -- exactly two parts [u, d]
      rw [hsp] at hm
      have hv : v = u ++ '@' :: d := pySplit_pair hsp
      rcases u with _ | ⟨u0, _ | ⟨u1, ur⟩⟩
      · -- empty local part: IndexError, no value returned
        simp at hm
      · -- single-character local part: the mask is the verbatim input
        have hmv : m = v := by
          simp only [Option.some.injEq] at hm
          rw [← hm, hv]
          simp
        constructor
        · intro hne
          exfalso
          apply hne
          refine ⟨ht1, ?_⟩
          rw [emailSingleCharLocal, hsp]
          simp
        · intro _
          exact hmv
      · -- local part of length ≥ 2: position 1 of the mask is '*'
        simp only [Option.some.injEq] at hm
        constructor
        · intro _
          apply mask_ne_of_star_at hstar (i := 1) (by omega)
          rw [← hm]
          simp [List.replicate_succ]
        · intro hsc
          rw [emailSingleCharLocal, hsp] at hsc
          simp at hsc
    · -- three or more parts: default branch
      rw [hsp] at hm
      simp only [Option.some.injEq] at hm
      constructor
      · intro _
        rw [← hm]
        exact defaultMask_ne v hlen hstar
      · intro hsc
        rw [emailSingleCharLocal, hsp] at hsc
        simp at hsc
  · rw [if_neg ht1] at hm
    have hnotmail : ¬(t = "Email Address" ∧ emailSingleCharLocal v = true) := by
      intro h
      exact ht1 h.1
    refine ⟨fun _ => ?_, fun h => absurd h.1 ht1⟩
    by_cases ht2 : t = "Credit Card Number"
    · rw [if_pos ht2, if_pos (by omega)] at hm
      simp only [Option.some.injEq] at hm
      rw [← hm]
      exact star_head_ne (by omega) (by omega) hstar
    · rw [if_neg ht2] at hm
      by_cases ht3 : t = "Phone Number"
      · rw [if_pos ht3, if_pos (by omega)] at hm
        simp only [Option.some.injEq] at hm
        rw [← hm]
        exact star_head_ne (by omega) (by omega) hstar
      · rw [if_neg ht3] at hm
        by_cases ht4 : t = "SSN" ∨ t = "Social Security Number"
        · rw [if_pos ht4, if_pos (by omega)] at hm
          simp only [Option.some.injEq] at hm
          apply mask_ne_of_star_at hstar (i := 0) (by omega)
          rw [← hm]
          rfl
        · rw [if_neg ht4] at hm
          by_cases ht5 : t = "Bank Account Number"
          · rw [if_pos ht5, if_pos (by omega)] at hm
            simp only [Option.some.injEq] at hm
            rw [← hm]
            exact star_head_ne (by omega) (by omega) hstar
          · rw [if_neg ht5] at hm
            simp only [Option.some.injEq] at hm
            rw [← hm]
            exact defaultMask_ne v hlen hstar

/-- Witness for C4 at the credit-card rule on `"secret99"`: the mask
`"****et99"` differs from the input. -/
theorem C4_mask_never_verbatim_witness :
    "****et99".data ≠ "secret99".data :=
  (C4_mask_never_verbatim "secret99".data "Credit Card Number" "****et99".data
    (by decide) (by decide) (by decide)).1 (by decide)

end Gandiva